import Mathlib

/-!
Shallow embedding of the live classroom polling server (backend/server.js and
backend/models/Student.js) and proofs about its session/poll state machine.

Modelling conventions:
* Mongo document ids and timestamps are modelled as `Nat`.
* The student collection is the durable store's view, modelled as a list of
  `Student` records; a mongoose `save()` of a fetched document is modelled as
  applying the field updates to the matching record of the list.  Mutations of
  a fetched document that are never saved do not change the list.
* Each awaited store write takes a `Bool` telling whether the write succeeds;
  a failing write throws to the handler's catch block, so statements after it
  are skipped while in-memory mutations already made are kept (exactly as in
  the JavaScript source — there is no rollback).
* Socket emissions and durable-store writes are collected into a list of
  `OutMsg` effects, in program order.  Payload records keep the fields of the
  emitted JavaScript objects that the specification talks about; a field that
  a particular emission does not include is `none`.
-/

/-- One poll option as stored: text, correctness flag, vote tally
(backend/models/Poll options array). -/
structure PollOption where
  text : String
  isCorrect : Bool
  votes : Nat
deriving DecidableEq

/-- A poll document.  `pid` models the generated `_id`. -/
structure Poll where
  pid : Nat
  question : String
  options : List PollOption
  duration : Nat
  startTime : Nat
  status : String
  completedAt : Option Nat
deriving DecidableEq

/-- A student document (backend/models/Student.js): `socketId` is the current
connection handle (`none` when offline), `studentId` the persistent identity. -/
structure Student where
  socketId : Option String
  studentId : String
  name : String
  lastSeen : Nat
  hasAnswered : Bool
  kicked : Bool
deriving DecidableEq

/-- The server's in-memory globals (`currentActivePoll`, `pollTimer`,
`answeredStudentsCount`) together with the student collection. -/
structure ServerState where
  currentActivePoll : Option Poll
  pollTimer : Option Nat
  answeredStudentsCount : Nat
  students : List Student
deriving DecidableEq

/-- An option as it appears inside an outbound payload; a field the emitted
object does not carry is `none`. -/
structure SentOption where
  text : String
  votes : Option Nat
  isCorrect : Bool
  percentage : Option Nat
deriving DecidableEq

/-- The poll view sent with a `newPoll` event (no vote counts). -/
structure NewPollView where
  pid : Nat
  question : String
  options : List SentOption
  duration : Nat
  startTime : Nat
deriving DecidableEq

/-- Outbound effects: socket emissions and durable-store writes, in program
order.  `errorNotice` is a `socket.emit("error", ...)` to one connection;
the other emissions are `io.emit` broadcasts.  `pollUpdate` keeps the
claim-relevant fields of the emitted object: per-option data, `totalVoters`
(absent on the poll-creation emission), `answeredCount`, `totalStudents`. -/
inductive OutMsg where
  | errorNotice (target : String) (message : String)
  | newPollNotice (poll : Option NewPollView) (status : String)
  | pollUpdate (options : List SentOption) (totalVoters : Option Nat)
      (answeredCount : Nat) (totalStudents : Nat)
  | pollEnded (pid : Nat) (question : String) (options : List SentOption)
      (totalVoters : Nat) (status : String) (completedAt : Option Nat)
  | studentListUpdate (students : List Student)
  | studentKicked (target : String) (studentId : String)
  | storeWrite (tag : String)
deriving DecidableEq

/-- `Student.findOne({studentId})`. -/
def findStudent (students : List Student) (sid : String) : Option Student :=
  students.find? (fun s => s.studentId == sid)

/-- Saving a fetched and field-updated student document back to the store. -/
def saveStudent (students : List Student) (sid : String) (f : Student → Student) :
    List Student :=
  students.map (fun s => if s.studentId == sid then f s else s)

/-- `Student.find({kicked: false, socketId: {$ne: null}})`. -/
def getActiveStudents (students : List Student) : List Student :=
  students.filter (fun s => !s.kicked && s.socketId.isSome)

/-- `options.reduce((sum, opt) => sum + opt.votes, 0)` (addition on naturals,
so the fold direction does not change the value). -/
def sumVotes : List PollOption → Nat
  | [] => 0
  | o :: rest => o.votes + sumVotes rest

/-- `options.findIndex(opt => opt.text === answer)`: index of the first option
with the given text, `none` when the JavaScript call returns `-1`. -/
def findOptionIdx : List PollOption → String → Option Nat
  | [], _ => none
  | o :: rest, answer =>
    if o.text == answer then some 0
    else (findOptionIdx rest answer).map (· + 1)

/-- `currentActivePoll.options[i].votes++`. -/
def incVoteAt : List PollOption → Nat → List PollOption
  | [], _ => []
  | o :: rest, 0 => { o with votes := o.votes + 1 } :: rest
  | o :: rest, n + 1 => o :: incVoteAt rest n

/-- Vote count of option `k` (0 when out of range), used to state
frame conditions on vote tallies. -/
def votesAt (opts : List PollOption) (k : Nat) : Nat :=
  ((opts.get? k).map PollOption.votes).getD 0

/-- `Math.round((votes / total) * 100)`: round-half-up of `100*votes/total`,
which for naturals is `(200*votes + total) / (2*total)`.  The JavaScript
source computes this through binary doubles; on this server's integer tallies
the double computation realises exact half-up rounding.  Natural division
makes `total = 0` yield `0` (JavaScript would produce `NaN` there; the code
reaches a zero total only on the guarded close path). -/
def pctRound (votes total : Nat) : Nat := (200 * votes + total) / (2 * total)

/-- Option view used by `newPoll` emissions: text and correctness only. -/
def optionView (o : PollOption) : SentOption :=
  { text := o.text, votes := none, isCorrect := o.isCorrect, percentage := none }

def newPollView (p : Poll) : NewPollView :=
  { pid := p.pid, question := p.question, options := p.options.map optionView,
    duration := p.duration, startTime := p.startTime }

/-- The `newPoll` message sent to a joining socket: the active poll without
votes, or a `no_active_poll` notice. -/
def joinPollMsg (st : ServerState) : OutMsg :=
  match st.currentActivePoll with
  | some p =>
    if p.status == "active" then .newPollNotice (some (newPollView p)) "active"
    else .newPollNotice none "no_active_poll"
  | none => .newPollNotice none "no_active_poll"

/-- The `studentJoin` handler (server.js lines 77-125).  `saveOk` models the
awaited `student.save()`; on failure the catch emits a join error and the
store is unchanged. -/
def studentJoin (st : ServerState) (sockId name sid : String) (now : Nat)
    (saveOk : Bool) : ServerState × List OutMsg :=
  match findStudent st.students sid with
  | some _ =>
    if saveOk then
      let students := saveStudent st.students sid
        (fun s => { s with socketId := some sockId, lastSeen := now, kicked := false })
      let st' := { st with students := students }
      (st', [.storeWrite "saveStudent", joinPollMsg st',
             .studentListUpdate (getActiveStudents st'.students)])
    else (st, [.errorNotice sockId "Failed to join session."])
  | none =>
    if saveOk then
      let students := st.students ++
        [{ socketId := some sockId, studentId := sid, name := name, lastSeen := now,
           hasAnswered := false, kicked := false }]
      let st' := { st with students := students }
      (st', [.storeWrite "saveStudent", joinPollMsg st',
             .studentListUpdate (getActiveStudents st'.students)])
    else (st, [.errorNotice sockId "Failed to join session."])

/-- The `submitAnswer` handler (server.js lines 127-201).  `sockSid` is the
socket id (target of error notices), `sockStudentId` the identity bound to the
socket at join (`socket.studentId`).  `findOk`, `pollSaveOk`, `studentSaveOk`
model the three awaited store operations; a failing one throws to the catch,
which emits the generic submit error — in-memory mutations already made (the
vote increment on `currentActivePoll`) are not rolled back. -/
def submitAnswer (st : ServerState) (sockSid : String) (sockStudentId : Option String)
    (pollId : Nat) (sid answer : String)
    (findOk pollSaveOk studentSaveOk : Bool) : ServerState × List OutMsg :=
  if sockStudentId ≠ some sid then
    (st, [.errorNotice sockSid "Authentication mismatch for submitting answer."])
  else
    match st.currentActivePoll with
    | none => (st, [.errorNotice sockSid "No active poll or wrong poll ID."])
    | some poll =>
      if poll.pid ≠ pollId then
        (st, [.errorNotice sockSid "No active poll or wrong poll ID."])
      else if !findOk then
        (st, [.errorNotice sockSid "Failed to submit answer due to server error."])
      else
        match findStudent st.students sid with
        | none =>
          (st, [.errorNotice sockSid
                 "You have already answered this poll or are not a valid student."])
        | some student =>
          if student.hasAnswered then
            (st, [.errorNotice sockSid
                   "You have already answered this poll or are not a valid student."])
          else
            match findOptionIdx poll.options answer with
            | none => (st, [.errorNotice sockSid "Invalid answer option."])
            | some i =>
              let poll' := { poll with options := incVoteAt poll.options i }
              let st1 := { st with currentActivePoll := some poll' }
              if !pollSaveOk then
                (st1, [.errorNotice sockSid
                        "Failed to submit answer due to server error."])
              else if !studentSaveOk then
                (st1, [.storeWrite "savePoll",
                       .errorNotice sockSid
                         "Failed to submit answer due to server error."])
              else
                let students := saveStudent st1.students sid
                  (fun s => { s with hasAnswered := true })
                let st2 := { st1 with students := students,
                                      answeredStudentsCount := st1.answeredStudentsCount + 1 }
                let totalVotes := sumVotes poll'.options
                let stats := poll'.options.map (fun o =>
                  SentOption.mk o.text (some o.votes) o.isCorrect
                    (some (pctRound o.votes totalVotes)))
                (st2, [.storeWrite "savePoll", .storeWrite "saveStudent",
                       .pollUpdate stats (some totalVotes) st2.answeredStudentsCount
                         (getActiveStudents st2.students).length,
                       .studentListUpdate (getActiveStudents st2.students)])

/-- The payload of a `createPoll` request. -/
structure PollInput where
  question : String
  options : List (String × Bool)
  duration : Nat
deriving DecidableEq

/-- `currentActivePoll && currentActivePoll.status === "active"`. -/
def activeGuard (st : ServerState) : Bool :=
  match st.currentActivePoll with
  | some p => p.status == "active"
  | none => false

/-- The `createPoll` handler (server.js lines 204-266).  `updateManyOk` and
`pollSaveOk` model the two awaited store writes (the `hasAnswered` reset of
connected unkicked students, and `newPoll.save()`); `newPid` and `now` stand
for the generated document id and `Date.now()`.  Note the program order: the
flag reset and `answeredStudentsCount = 0` happen before the poll save, so a
failing save leaves them applied. -/
def createPoll (st : ServerState) (sockSid : String) (pd : PollInput)
    (newPid now : Nat) (updateManyOk pollSaveOk : Bool) : ServerState × List OutMsg :=
  if activeGuard st then
    (st, [.errorNotice sockSid
           "A poll is already active. Please wait for it to complete or end it."])
  else if !updateManyOk then
    (st, [.errorNotice sockSid "Failed to create poll."])
  else
    let students := st.students.map (fun s =>
      if s.socketId.isSome && !s.kicked then { s with hasAnswered := false } else s)
    let st1 := { st with students := students, answeredStudentsCount := 0 }
    if !pollSaveOk then
      (st1, [.storeWrite "updateManyStudents",
             .errorNotice sockSid "Failed to create poll."])
    else
      let newPoll : Poll :=
        { pid := newPid, question := pd.question,
          options := pd.options.map (fun o =>
            { text := o.1, isCorrect := o.2, votes := 0 }),
          duration := pd.duration, startTime := now, status := "active",
          completedAt := none }
      let st2 := { st1 with currentActivePoll := some newPoll,
                            pollTimer := some newPid }
      (st2, [.storeWrite "updateManyStudents", .storeWrite "createPoll",
             .newPollNotice (some (newPollView newPoll)) "active",
             .pollUpdate (newPoll.options.map (fun o =>
                 SentOption.mk o.text (some o.votes) o.isCorrect none))
               none st2.answeredStudentsCount
               (getActiveStudents st2.students).length,
             .studentListUpdate (getActiveStudents st2.students)])

/-- `endPoll` (server.js lines 341-376).  `pollSaveOk` and `updateManyOk`
model the two store writes; a failure propagates to the caller after the
in-memory mutations made so far (no rollback), so its emissions stop there. -/
def endPoll (st : ServerState) (pollId now : Nat)
    (pollSaveOk updateManyOk : Bool) : ServerState × List OutMsg :=
  match st.currentActivePoll with
  | none => (st, [])
  | some poll =>
    if poll.pid ≠ pollId then (st, [])
    else
      let poll' := { poll with status := "completed", completedAt := some now }
      let st1 := { st with currentActivePoll := some poll', pollTimer := none }
      if !pollSaveOk then (st1, [])
      else
        let totalVotes := sumVotes poll'.options
        let finalOptions := poll'.options.map (fun o =>
          SentOption.mk o.text (some o.votes) o.isCorrect
            (some (if totalVotes > 0 then pctRound o.votes totalVotes else 0)))
        let st2 := { st1 with currentActivePoll := none, answeredStudentsCount := 0 }
        if !updateManyOk then
          (st2, [.storeWrite "savePoll",
                 .pollEnded poll'.pid poll'.question finalOptions totalVotes
                   poll'.status poll'.completedAt])
        else
          let students := st2.students.map (fun s => { s with hasAnswered := false })
          let st3 := { st2 with students := students }
          (st3, [.storeWrite "savePoll",
                 .pollEnded poll'.pid poll'.question finalOptions totalVotes
                   poll'.status poll'.completedAt,
                 .studentListUpdate (getActiveStudents st3.students)])

/-- The `kickStudent` handler (server.js lines 277-313).  `targetSock` tells
whether `io.fetchSockets()` finds a live socket bound to this student id
(transport-level state outside `ServerState`). -/
def kickStudent (st : ServerState) (sockSid sid : String)
    (findOk saveOk : Bool) (targetSock : Option String) : ServerState × List OutMsg :=
  if !findOk then (st, [.errorNotice sockSid "Failed to kick student."])
  else
    match findStudent st.students sid with
    | none => (st, [.errorNotice sockSid "Student not found."])
    | some _ =>
      if !saveOk then (st, [.errorNotice sockSid "Failed to kick student."])
      else
        let students := saveStudent st.students sid
          (fun s => { s with kicked := true, socketId := none })
        let st' := { st with students := students }
        let kickMsgs :=
          match targetSock with
          | some t => [OutMsg.studentKicked t sid]
          | none => []
        (st', [OutMsg.storeWrite "saveStudent"] ++ kickMsgs ++
              [.studentListUpdate (getActiveStudents st'.students),
               .studentKicked sockSid sid])

/-- `Student.updateOne({socketId}, {$set: {socketId: null, lastSeen: now}})`:
updates the first matching document. -/
def markOffline : List Student → String → Nat → List Student
  | [], _, _ => []
  | s :: rest, sockId, now =>
    if s.socketId == some sockId then
      { s with socketId := none, lastSeen := now } :: rest
    else s :: markOffline rest sockId now

/-- The disconnect handler (server.js lines 325-337).  `updateOk` models the
store write; failures are logged only, nothing is emitted. -/
def disconnect (st : ServerState) (sockId : String) (now : Nat)
    (updateOk : Bool) : ServerState × List OutMsg :=
  if !updateOk then (st, [])
  else
    let st' := { st with students := markOffline st.students sockId now }
    (st', [.storeWrite "updateStudent",
           .studentListUpdate (getActiveStudents st'.students)])

/-- One inbound event together with its store-outcome oracle, for stating
properties of every reachable state. -/
inductive Op where
  | join (sockId name sid : String) (now : Nat) (saveOk : Bool)
  | submit (sockSid : String) (sockStudentId : Option String) (pollId : Nat)
      (sid answer : String) (findOk pollSaveOk studentSaveOk : Bool)
  | create (sockSid : String) (pd : PollInput) (newPid now : Nat)
      (updateManyOk pollSaveOk : Bool)
  | close (pollId now : Nat) (pollSaveOk updateManyOk : Bool)
  | kick (sockSid sid : String) (findOk saveOk : Bool) (targetSock : Option String)
  | disc (sockId : String) (now : Nat) (updateOk : Bool)
deriving DecidableEq

def applyOp (st : ServerState) : Op → ServerState × List OutMsg
  | .join sockId name sid now saveOk => studentJoin st sockId name sid now saveOk
  | .submit sockSid ssid pollId sid answer f p s =>
      submitAnswer st sockSid ssid pollId sid answer f p s
  | .create sockSid pd newPid now u p => createPoll st sockSid pd newPid now u p
  | .close pollId now p u => endPoll st pollId now p u
  | .kick sockSid sid f s t => kickStudent st sockSid sid f s t
  | .disc sockId now u => disconnect st sockId now u

/-- Process start: no active poll, no timer, zero counter, empty collection. -/
def initState : ServerState :=
  { currentActivePoll := none, pollTimer := none,
    answeredStudentsCount := 0, students := [] }

def runOps (st : ServerState) : List Op → ServerState
  | [] => st
  | op :: rest => runOps (applyOp st op).1 rest

def runMsgs (st : ServerState) : List Op → List OutMsg
  | [] => []
  | op :: rest => (applyOp st op).2 ++ runMsgs (applyOp st op).1 rest

/-- All store operations of an event succeed. -/
def Op.allOk : Op → Bool
  | .join _ _ _ _ s => s
  | .submit _ _ _ _ _ f p s => f && p && s
  | .create _ _ _ _ u p => u && p
  | .close _ _ p u => p && u
  | .kick _ _ f s _ => f && s
  | .disc _ _ u => u

/-! ### Concrete fixtures used by witness and counterexample theorems -/

def pollEx : Poll :=
  { pid := 1, question := "2+2?",
    options := [⟨"4", true, 0⟩, ⟨"5", false, 0⟩],
    duration := 30, startTime := 0, status := "active", completedAt := none }

def annEx : Student :=
  { socketId := some "k1", studentId := "s1", name := "Ann",
    lastSeen := 0, hasAnswered := false, kicked := false }

def stActiveEx : ServerState :=
  { currentActivePoll := some pollEx, pollTimer := some 1,
    answeredStudentsCount := 0, students := [annEx] }

def stIdleEx : ServerState :=
  { currentActivePoll := none, pollTimer := none,
    answeredStudentsCount := 0, students := [annEx] }

/-- Spec-side reading of a snapshot: the sum of the vote counts it carries. -/
def sumSent : List SentOption → Nat
  | [] => 0
  | o :: rest => o.votes.getD 0 + sumSent rest

/-- A poll fixture with recorded votes, for the C4 witness. -/
def pollVotedEx : Poll :=
  { pid := 3, question := "Q3",
    options := [⟨"4", true, 1⟩, ⟨"5", false, 1⟩],
    duration := 30, startTime := 0, status := "active", completedAt := none }

def stVotedEx : ServerState :=
  { currentActivePoll := some pollVotedEx, pollTimer := some 3,
    answeredStudentsCount := 2, students := [annEx] }

/-! ### Remaining definitions for C1, C7, C8, C9 -/

/-- The respondent invariant of C8: a connected record is not blocked. -/
def StudentInv (s : Student) : Prop := s.socketId.isSome = true → s.kicked = false

/-- The session invariant of C9: while a poll is active, the answered counter
equals the sum of its option vote counts. -/
def SessionInv (st : ServerState) : Prop :=
  ∀ p, st.currentActivePoll = some p → st.answeredStudentsCount = sumVotes p.options

/-- A `submitAnswer` call by the respondent `sid` from a socket that bound
that same identity at join, against poll `pid`, with all store operations
succeeding. -/
def submitSame (sockSid sid : String) (pid : Nat) (st : ServerState)
    (answer : String) : ServerState × List OutMsg :=
  submitAnswer st sockSid (some sid) pid sid answer true true true

/-- One step of a serially-executed submission sequence: pre-state, submitted
answer, emitted effects, post-state. -/
structure SubmitStep where
  pre : ServerState
  answer : String
  msgs : List OutMsg
  post : ServerState
deriving DecidableEq

/-- The trace of a serially-executed sequence of same-respondent,
same-poll submissions. -/
def submitTrace (sockSid sid : String) (pid : Nat) :
    ServerState → List String → List SubmitStep
  | _, [] => []
  | st, a :: rest =>
    let r := submitSame sockSid sid pid st a
    { pre := st, answer := a, msgs := r.2, post := r.1 } ::
      submitTrace sockSid sid pid r.1 rest

def isPollUpdate : OutMsg → Bool
  | .pollUpdate _ _ _ _ => true
  | _ => false

/-- A call is accepted (counted a vote) exactly when it emitted a result
update. -/
def isAcceptedMsgs (msgs : List OutMsg) : Bool := msgs.any isPollUpdate

/-- A fixture where Ann has already answered the active poll. -/
def annAnsweredEx : Student :=
  { socketId := some "k1", studentId := "s1", name := "Ann",
    lastSeen := 0, hasAnswered := true, kicked := false }

def stAnsweredEx : ServerState :=
  { currentActivePoll := some pollEx, pollTimer := some 1,
    answeredStudentsCount := 1, students := [annAnsweredEx] }

/-- A concrete run exercising join, create, vote, kick, disconnect, rejoin. -/
def opsEx : List Op :=
  [.join "k1" "Ann" "s1" 0 true,
   .create "t1" ⟨"2+2?", [("4", true), ("5", false)], 30⟩ 1 0 true true,
   .submit "k1" (some "s1") 1 "s1" "4" true true true,
   .kick "t1" "s1" true true (some "k1"),
   .disc "k1" 7 true,
   .join "k2" "Ann" "s1" 8 true]

/-! ### Helper lemmas -/

theorem findOptionIdx_lt_length (opts : List PollOption) (answer : String) (i : Nat)
    (h : findOptionIdx opts answer = some i) : i < opts.length := by
  induction opts generalizing i with
  | nil => simp [findOptionIdx] at h
  | cons o rest ih =>
    by_cases hh : o.text == answer
    · simp [findOptionIdx, hh] at h
      cases h
      exact Nat.succ_pos _
    · simp [findOptionIdx, hh] at h
      obtain ⟨j, hj, rfl⟩ := h
      exact Nat.succ_lt_succ (ih j hj)

theorem sumVotes_incVoteAt (opts : List PollOption) (i : Nat) (h : i < opts.length) :
    sumVotes (incVoteAt opts i) = sumVotes opts + 1 := by
  induction opts generalizing i with
  | nil => simp at h
  | cons o rest ih =>
    cases i with
    | zero =>
      simp [incVoteAt, sumVotes]
      omega
    | succ n =>
      have hn : n < rest.length := by simpa using Nat.lt_of_succ_lt_succ h
      simp [incVoteAt, sumVotes, ih n hn]
      omega

/-! ### C3 -/

/-- C3: whenever `createPoll` is invoked while a poll is active, it fails with
the already-active error notice to the caller and the returned state is the
input state unchanged — no new poll, same active-poll reference, every vote
count untouched. -/
theorem createPoll_whileActive_fails (st : ServerState) (sockSid : String)
    (pd : PollInput) (newPid now : Nat) (uOk pOk : Bool) (p : Poll)
    (hp : st.currentActivePoll = some p) (hact : p.status = "active") :
    createPoll st sockSid pd newPid now uOk pOk =
      (st, [.errorNotice sockSid
        "A poll is already active. Please wait for it to complete or end it."]) := by
  simp [createPoll, activeGuard, hp, hact]

/-- Witness for C3 at a concrete state with an active poll. -/
theorem createPoll_whileActive_fails_witness :
    stActiveEx.currentActivePoll = some pollEx ∧ pollEx.status = "active" ∧
    createPoll stActiveEx "t9" ⟨"Q2", [("x", true)], 10⟩ 7 5 true true =
      (stActiveEx, [.errorNotice "t9"
        "A poll is already active. Please wait for it to complete or end it."]) :=
  ⟨rfl, rfl,
    createPoll_whileActive_fails stActiveEx "t9" ⟨"Q2", [("x", true)], 10⟩ 7 5
      true true pollEx rfl rfl⟩

/-! ### C5 -/

/-- C5: `endPoll` invoked while idle (no active poll) or with a poll id that
does not match the active poll performs no state change at all and emits
nothing — no store write, no poll-ended broadcast. -/
theorem endPoll_stale_noop (st : ServerState) (pollId now : Nat) (a b : Bool)
    (h : st.currentActivePoll = none ∨
         ∃ p, st.currentActivePoll = some p ∧ p.pid ≠ pollId) :
    endPoll st pollId now a b = (st, []) := by
  rcases h with h | ⟨p, hp, hne⟩
  · simp [endPoll, h]
  · simp [endPoll, hp, hne]

/-- Witness for C5: a stale close (wrong id, here 2 instead of 1) at a
concrete active state is a complete no-op. -/
theorem endPoll_stale_noop_witness :
    (stActiveEx.currentActivePoll = none ∨
      ∃ p, stActiveEx.currentActivePoll = some p ∧ p.pid ≠ 2) ∧
    endPoll stActiveEx 2 9 true true = (stActiveEx, []) :=
  ⟨Or.inr ⟨pollEx, rfl, by decide⟩,
   endPoll_stale_noop stActiveEx 2 9 true true (Or.inr ⟨pollEx, rfl, by decide⟩)⟩

/-! ### C10 -/

/-- C10: every `pollUpdate` emitted by the `submitAnswer` handler carries a
total-votes divisor that counts the vote just recorded on top of the previous
tallies, hence is at least 1 — the unguarded percentage division on this path
never divides by zero. -/
theorem submit_update_divisor_pos (st : ServerState) (sockSid : String)
    (ssid : Option String) (pollId : Nat) (sid answer : String) (f p s : Bool)
    (opts : List SentOption) (tv : Option Nat) (ac ts : Nat)
    (hmem : OutMsg.pollUpdate opts tv ac ts ∈
      (submitAnswer st sockSid ssid pollId sid answer f p s).2) :
    ∃ poll n, st.currentActivePoll = some poll ∧ tv = some n ∧
      n = sumVotes poll.options + 1 ∧ 1 ≤ n := by
  unfold submitAnswer at hmem
  split at hmem
  · simp at hmem
  · rename_i hne
    rcases hpoll : st.currentActivePoll with _ | poll
    · rw [hpoll] at hmem
      simp at hmem
    · rw [hpoll] at hmem
      simp only at hmem
      split at hmem
      · simp at hmem
      · split at hmem
        · simp at hmem
        · rename_i hpid hfind
          rcases hstu : findStudent st.students sid with _ | student
          · rw [hstu] at hmem
            simp at hmem
          · rw [hstu] at hmem
            simp only at hmem
            split at hmem
            · simp at hmem
            · rcases hidx : findOptionIdx poll.options answer with _ | i
              · rw [hidx] at hmem
                simp at hmem
              · rw [hidx] at hmem
                simp only at hmem
                split at hmem
                · simp at hmem
                · split at hmem
                  · simp at hmem
                  · simp at hmem
                    obtain ⟨_, htv, _, _⟩ := hmem
                    refine ⟨poll, sumVotes (incVoteAt poll.options i), rfl, htv, ?_, ?_⟩
                    · exact sumVotes_incVoteAt poll.options i
                        (findOptionIdx_lt_length poll.options answer i hidx)
                    · have := sumVotes_incVoteAt poll.options i
                        (findOptionIdx_lt_length poll.options answer i hidx)
                      omega

/-- Witness for C10: Ann's accepted vote at the concrete state yields a
`pollUpdate` whose total is the previous sum plus one. -/
theorem submit_update_divisor_pos_witness :
    (OutMsg.pollUpdate
        [⟨"4", some 1, true, some 100⟩, ⟨"5", some 0, false, some 0⟩]
        (some 1) 1 1 ∈
      (submitAnswer stActiveEx "k1" (some "s1") 1 "s1" "4" true true true).2) ∧
    ∃ poll n, stActiveEx.currentActivePoll = some poll ∧
      (some 1 : Option Nat) = some n ∧ n = sumVotes poll.options + 1 ∧ 1 ≤ n :=
  ⟨by decide,
   submit_update_divisor_pos stActiveEx "k1" (some "s1") 1 "s1" "4" true true true
     [⟨"4", some 1, true, some 100⟩, ⟨"5", some 0, false, some 0⟩]
     (some 1) 1 1 (by decide)⟩

/-! ### C2 -/

/-- C2 counterexample: at a concrete state (active two-option poll, one fresh
respondent), a `submitAnswer` whose poll save fails emits the store error
notice, yet the in-memory active poll is NOT left as it was — the chosen
option's vote count has already been incremented. -/
theorem submit_storeFailure_counterexample :
    ((submitAnswer stActiveEx "k1" (some "s1") 1 "s1" "4" true false true).2 =
       [.errorNotice "k1" "Failed to submit answer due to server error."]) ∧
    (submitAnswer stActiveEx "k1" (some "s1") 1 "s1" "4" true false true).1.currentActivePoll
      ≠ stActiveEx.currentActivePoll := by
  decide

/-- C2 amended: a store failure during `submitAnswer` or `createPoll` emits an
error notice to the originating connection, and the respondent records, the
answered counter, the timer and the active-poll *reference* are unchanged —
but application can be partial: a failing poll save (or the later respondent
save) in `submitAnswer` leaves the chosen option's in-memory vote count
already incremented, and a failing poll save in `createPoll` leaves the
answered flags already cleared and the answered counter already reset to
zero.  A failing respondent lookup in `submitAnswer` and a failing flag-reset
write in `createPoll` leave the state fully unchanged. -/
theorem storeFailure_partial_application
    (st stc : ServerState) (sockSid sockSidc : String) (pollId : Nat)
    (sid answer : String) (poll : Poll) (student : Student) (i : Nat)
    (pd : PollInput) (newPid now : Nat) (sOk : Bool)
    (hp : st.currentActivePoll = some poll) (hpid : poll.pid = pollId)
    (hs : findStudent st.students sid = some student)
    (hans : student.hasAnswered = false)
    (hi : findOptionIdx poll.options answer = some i)
    (hg : activeGuard stc = false) :
    (submitAnswer st sockSid (some sid) pollId sid answer true false sOk =
      ({ st with
           currentActivePoll := some ({ poll with options := incVoteAt poll.options i }) },
       [.errorNotice sockSid "Failed to submit answer due to server error."]))
    ∧ (submitAnswer st sockSid (some sid) pollId sid answer true true false =
      ({ st with
           currentActivePoll := some ({ poll with options := incVoteAt poll.options i }) },
       [.storeWrite "savePoll",
        .errorNotice sockSid "Failed to submit answer due to server error."]))
    ∧ (submitAnswer st sockSid (some sid) pollId sid answer false true true =
      (st, [.errorNotice sockSid "Failed to submit answer due to server error."]))
    ∧ (createPoll stc sockSidc pd newPid now false true =
      (stc, [.errorNotice sockSidc "Failed to create poll."]))
    ∧ (createPoll stc sockSidc pd newPid now true false =
      ({ stc with
           students := stc.students.map (fun s =>
             if s.socketId.isSome && !s.kicked then { s with hasAnswered := false }
             else s),
           answeredStudentsCount := 0 },
       [.storeWrite "updateManyStudents",
        .errorNotice sockSidc "Failed to create poll."])) := by
  refine ⟨?_, ?_, ?_, ?_, ?_⟩
  · simp [submitAnswer, hp, hpid, hs, hans, hi]
  · simp [submitAnswer, hp, hpid, hs, hans, hi]
  · simp [submitAnswer, hp, hpid]
  · simp [createPoll, hg]
  · simp [createPoll, hg]

/-- Witness for the amended C2 at concrete states. -/
theorem storeFailure_partial_application_witness :
    stActiveEx.currentActivePoll = some pollEx ∧ pollEx.pid = 1 ∧
    findStudent stActiveEx.students "s1" = some annEx ∧
    annEx.hasAnswered = false ∧
    findOptionIdx pollEx.options "4" = some 0 ∧
    activeGuard stIdleEx = false ∧
    ((submitAnswer stActiveEx "k1" (some "s1") 1 "s1" "4" true false true =
      ({ stActiveEx with
           currentActivePoll := some ({ pollEx with options := incVoteAt pollEx.options 0 }) },
       [.errorNotice "k1" "Failed to submit answer due to server error."]))
    ∧ (submitAnswer stActiveEx "k1" (some "s1") 1 "s1" "4" true true false =
      ({ stActiveEx with
           currentActivePoll := some ({ pollEx with options := incVoteAt pollEx.options 0 }) },
       [.storeWrite "savePoll",
        .errorNotice "k1" "Failed to submit answer due to server error."]))
    ∧ (submitAnswer stActiveEx "k1" (some "s1") 1 "s1" "4" false true true =
      (stActiveEx,
       [.errorNotice "k1" "Failed to submit answer due to server error."]))
    ∧ (createPoll stIdleEx "t1" ⟨"Q", [("x", true)], 10⟩ 7 5 false true =
      (stIdleEx, [.errorNotice "t1" "Failed to create poll."]))
    ∧ (createPoll stIdleEx "t1" ⟨"Q", [("x", true)], 10⟩ 7 5 true false =
      ({ stIdleEx with
           students := stIdleEx.students.map (fun s =>
             if s.socketId.isSome && !s.kicked then { s with hasAnswered := false }
             else s),
           answeredStudentsCount := 0 },
       [.storeWrite "updateManyStudents",
        .errorNotice "t1" "Failed to create poll."]))) :=
  ⟨rfl, rfl, rfl, rfl, rfl, rfl,
   storeFailure_partial_application stActiveEx stIdleEx "k1" "t1" 1 "s1" "4"
     pollEx annEx 0 ⟨"Q", [("x", true)], 10⟩ 7 5 true
     rfl rfl rfl rfl rfl rfl⟩

/-! ### C6 -/

/-- C6 counterexample: the full effect list of a successful `createPoll` at a
concrete idle state.  Its `pollUpdate` — the zeroed result update the claim
talks about — has `totalVoters = none` and `percentage = none` on its option:
the creation-time result update does NOT contain a total-votes field or
per-option percentages. -/
theorem createPoll_update_missing_fields :
    (createPoll stIdleEx "t1" ⟨"Q", [("x", true)], 10⟩ 7 5 true true).2 =
      [.storeWrite "updateManyStudents", .storeWrite "createPoll",
       .newPollNotice (some ⟨7, "Q", [⟨"x", none, true, none⟩], 10, 5⟩) "active",
       .pollUpdate [⟨"x", some 0, true, none⟩] none 0 1,
       .studentListUpdate [annEx]] := by
  decide

/-- C6 amended: every result update emitted after an accepted vote carries,
for each option, its vote count and computed percentage, plus a total-votes
field (the answered count and active-respondent count are always present by
construction); the zeroed result update emitted upon poll creation carries
per-option vote counts (all zero) and the two counters, but its total-votes
field and per-option percentages are absent. -/
theorem pollUpdate_field_presence
    (st st2 : ServerState) (sockSid sockSid2 : String) (ssid : Option String)
    (pollId : Nat) (sid answer : String) (f p s : Bool)
    (pd : PollInput) (newPid now : Nat) (u pOk : Bool) :
    (∀ opts tv ac ts, OutMsg.pollUpdate opts tv ac ts ∈
        (submitAnswer st sockSid ssid pollId sid answer f p s).2 →
      (∃ n, tv = some n) ∧
      ∀ o ∈ opts, (∃ v, o.votes = some v) ∧ ∃ pc, o.percentage = some pc)
    ∧ (∀ opts tv ac ts, OutMsg.pollUpdate opts tv ac ts ∈
        (createPoll st2 sockSid2 pd newPid now u pOk).2 →
      tv = none ∧ ∀ o ∈ opts, o.votes = some 0 ∧ o.percentage = none) := by
  constructor
  · intro opts tv ac ts hmem
    unfold submitAnswer at hmem
    split at hmem
    · simp at hmem
    · rcases hpoll : st.currentActivePoll with _ | poll
      · rw [hpoll] at hmem
        simp at hmem
      · rw [hpoll] at hmem
        simp only at hmem
        split at hmem
        · simp at hmem
        · split at hmem
          · simp at hmem
          · rcases hstu : findStudent st.students sid with _ | student
            · rw [hstu] at hmem
              simp at hmem
            · rw [hstu] at hmem
              simp only at hmem
              split at hmem
              · simp at hmem
              · rcases hidx : findOptionIdx poll.options answer with _ | i
                · rw [hidx] at hmem
                  simp at hmem
                · rw [hidx] at hmem
                  simp only at hmem
                  split at hmem
                  · simp at hmem
                  · split at hmem
                    · simp at hmem
                    · simp at hmem
                      obtain ⟨hopts, htv, _, _⟩ := hmem
                      subst hopts
                      refine ⟨⟨_, htv⟩, ?_⟩
                      intro o ho
                      obtain ⟨orig, _, rfl⟩ := List.mem_map.1 ho
                      exact ⟨⟨orig.votes, rfl⟩, _, rfl⟩
  · intro opts tv ac ts hmem
    unfold createPoll at hmem
    split at hmem
    · simp at hmem
    · split at hmem
      · simp at hmem
      · split at hmem
        · simp at hmem
        · simp at hmem
          obtain ⟨hopts, htv, _, _⟩ := hmem
          subst hopts
          refine ⟨htv, ?_⟩
          intro o ho
          obtain ⟨pair, _, rfl⟩ := List.mem_map.1 ho
          exact ⟨rfl, rfl⟩

/-- Witness for the amended C6 at concrete states (the accepted-vote update
and the creation-time update of the fixture states). -/
theorem pollUpdate_field_presence_witness :
    (∀ opts tv ac ts, OutMsg.pollUpdate opts tv ac ts ∈
        (submitAnswer stActiveEx "k1" (some "s1") 1 "s1" "4" true true true).2 →
      (∃ n, tv = some n) ∧
      ∀ o ∈ opts, (∃ v, o.votes = some v) ∧ ∃ pc, o.percentage = some pc)
    ∧ (∀ opts tv ac ts, OutMsg.pollUpdate opts tv ac ts ∈
        (createPoll stIdleEx "t1" ⟨"Q", [("x", true)], 10⟩ 7 5 true true).2 →
      tv = none ∧ ∀ o ∈ opts, o.votes = some 0 ∧ o.percentage = none) :=
  pollUpdate_field_presence stActiveEx stIdleEx "k1" "t1" (some "s1") 1 "s1" "4"
    true true true ⟨"Q", [("x", true)], 10⟩ 7 5 true true

/-! ### C4 -/

/-- The code's integer percentage realises the specification's
`round(100 * votes / total)` (round half up) whenever the total is positive. -/
theorem pctRound_eq_round (v t : Nat) (ht : 0 < t) :
    (pctRound v t : ℤ) = round ((100 * (v : ℚ)) / (t : ℚ)) := by
  have htQ : ((t : ℚ)) ≠ 0 := Nat.cast_ne_zero.2 ht.ne'
  have harg : (100 * (v : ℚ)) / (t : ℚ) + 1 / 2
      = (((200 * v + t : ℕ) : ℤ) : ℚ) / ((2 * t : ℕ) : ℚ) := by
    push_cast
    field_simp
    ring
  rw [round_eq, harg, Rat.floor_intCast_div_natCast]
  unfold pctRound
  exact Int.ofNat_tdiv _ _

theorem sumSent_map (opts : List PollOption) (g : PollOption → Option Nat) :
    sumSent (opts.map (fun o =>
      SentOption.mk o.text (some o.votes) o.isCorrect (g o))) = sumVotes opts := by
  induction opts with
  | nil => rfl
  | cons o rest ih => simp [sumSent, sumVotes, ih]

theorem finalOptions_sound (opts : List PollOption) (tv : Nat)
    (htv : tv = sumVotes opts) :
    sumSent (opts.map (fun o =>
      SentOption.mk o.text (some o.votes) o.isCorrect
        (some (if tv > 0 then pctRound o.votes tv else 0)))) = tv ∧
    ∀ o ∈ opts.map (fun o =>
        SentOption.mk o.text (some o.votes) o.isCorrect
          (some (if tv > 0 then pctRound o.votes tv else 0))),
      ∃ v pc, o.votes = some v ∧ o.percentage = some pc ∧
        (0 < tv → (pc : ℤ) = round ((100 * (v : ℚ)) / (tv : ℚ))) ∧
        (tv = 0 → pc = 0) := by
  constructor
  · rw [sumSent_map]
    exact htv.symm
  · intro o ho
    obtain ⟨orig, _, rfl⟩ := List.mem_map.1 ho
    refine ⟨orig.votes, if tv > 0 then pctRound orig.votes tv else 0, rfl, rfl, ?_, ?_⟩
    · intro hpos
      rw [if_pos hpos]
      exact pctRound_eq_round orig.votes tv hpos
    · intro h0
      subst h0
      simp

/-- C4: every final snapshot broadcast by a close satisfies the claim's
numeric contract: its total-voters field equals the sum of the vote counts it
carries, and each option's percentage equals `round(100*votes/totalVoters)`
(half-up, as `Math.round`) when the total is positive, and 0 when the total
is zero. -/
theorem endPoll_snapshot_sound (st : ServerState) (pollId now : Nat) (a b : Bool)
    (pid : Nat) (q : String) (fopts : List SentOption) (tv : Nat)
    (stt : String) (ca : Option Nat)
    (hmem : OutMsg.pollEnded pid q fopts tv stt ca ∈ (endPoll st pollId now a b).2) :
    sumSent fopts = tv ∧
    ∀ o ∈ fopts, ∃ v pc, o.votes = some v ∧ o.percentage = some pc ∧
      (0 < tv → (pc : ℤ) = round ((100 * (v : ℚ)) / (tv : ℚ))) ∧
      (tv = 0 → pc = 0) := by
  unfold endPoll at hmem
  rcases hpoll : st.currentActivePoll with _ | poll
  · rw [hpoll] at hmem
    simp at hmem
  · rw [hpoll] at hmem
    simp only at hmem
    split at hmem
    · simp at hmem
    · split at hmem
      · simp at hmem
      · split at hmem
        · simp at hmem
          obtain ⟨_, _, hfopts, htv, _, _⟩ := hmem
          subst hfopts
          subst htv
          exact finalOptions_sound poll.options _ rfl
        · simp at hmem
          obtain ⟨_, _, hfopts, htv, _, _⟩ := hmem
          subst hfopts
          subst htv
          exact finalOptions_sound poll.options _ rfl

/-- Witness for C4: closing the concrete 1-1 poll broadcasts a snapshot with
totalVoters 2 and fifty-fifty percentages, and the theorem applies to it. -/
theorem endPoll_snapshot_sound_witness :
    (OutMsg.pollEnded 3 "Q3"
        [⟨"4", some 1, true, some 50⟩, ⟨"5", some 1, false, some 50⟩]
        2 "completed" (some 9) ∈ (endPoll stVotedEx 3 9 true true).2) ∧
    (sumSent [⟨"4", some 1, true, some 50⟩, ⟨"5", some 1, false, some 50⟩] = 2 ∧
     ∀ o ∈ [(⟨"4", some 1, true, some 50⟩ : SentOption), ⟨"5", some 1, false, some 50⟩],
       ∃ v pc, o.votes = some v ∧ o.percentage = some pc ∧
         (0 < 2 → (pc : ℤ) = round ((100 * (v : ℚ)) / ((2 : ℕ) : ℚ))) ∧
         ((2 : Nat) = 0 → pc = 0)) :=
  ⟨by decide,
   endPoll_snapshot_sound stVotedEx 3 9 true true 3 "Q3"
     [⟨"4", some 1, true, some 50⟩, ⟨"5", some 1, false, some 50⟩]
     2 "completed" (some 9) (by decide)⟩

/-! ### C7 -/

theorem findStudent_markOffline (l : List Student) (sockId : String) (now : Nat)
    (sid : String) (s : Student) (h : findStudent l sid = some s) :
    ∃ s2, findStudent (markOffline l sockId now) sid = some s2 ∧
      s2.studentId = s.studentId ∧ s2.name = s.name ∧
      s2.hasAnswered = s.hasAnswered ∧ s2.kicked = s.kicked := by
  induction l with
  | nil => simp [findStudent] at h
  | cons a rest ih =>
    unfold findStudent at h
    rw [List.find?_cons] at h
    by_cases hid : (a.studentId == sid) = true
    · rw [hid] at h
      have hsa : a = s := by simpa using h
      subst hsa
      by_cases hm : (a.socketId == some sockId) = true
      · refine ⟨{ a with socketId := none, lastSeen := now }, ?_, rfl, rfl, rfl, rfl⟩
        unfold findStudent
        simp only [markOffline, hm, if_true]
        rw [List.find?_cons]
        simp [hid]
      · refine ⟨a, ?_, rfl, rfl, rfl, rfl⟩
        unfold findStudent
        simp only [markOffline, hm, Bool.false_eq_true, if_false]
        rw [List.find?_cons]
        simp [hid]
    · have hid' : (a.studentId == sid) = false := by simpa using hid
      rw [hid'] at h
      have h2 : findStudent rest sid = some s := h
      by_cases hm : (a.socketId == some sockId) = true
      · refine ⟨s, ?_, rfl, rfl, rfl, rfl⟩
        unfold findStudent
        simp only [markOffline, hm, if_true]
        rw [List.find?_cons]
        simp only [hid']
        exact h2
      · obtain ⟨s2, hfind, hp1, hp2, hp3, hp4⟩ := ih h2
        refine ⟨s2, ?_, hp1, hp2, hp3, hp4⟩
        unfold findStudent
        simp only [markOffline, hm, Bool.false_eq_true, if_false]
        rw [List.find?_cons]
        simp only [hid']
        exact hfind

theorem findStudent_saveStudent (l : List Student) (sid : String)
    (f : Student → Student) (hf : ∀ s, (f s).studentId = s.studentId) :
    findStudent (saveStudent l sid f) sid = (findStudent l sid).map f := by
  induction l with
  | nil => rfl
  | cons a rest ih =>
    simp only [saveStudent, List.map_cons]
    unfold findStudent
    by_cases hid : (a.studentId == sid) = true
    · have hfa : ((f a).studentId == sid) = true := by
        rw [hf a]
        exact hid
      rw [if_pos hid, List.find?_cons, List.find?_cons]
      simp only [hid, hfa]
      rfl
    · have hid' : (a.studentId == sid) = false := by simpa using hid
      rw [if_neg hid, List.find?_cons, List.find?_cons]
      simp only [hid']
      exact ih

/-- C7: after a disconnect and a rejoin under the same persistent id, the
respondent's record keeps its `hasAnswered` flag (the rejoin rewrites only
the connection handle, last-seen time and blocked flag); consequently a
respondent who had answered still gets the already-answered error, and an
unchanged state, on a repeat submission while the poll is active. -/
theorem reconnect_preserves_hasAnswered
    (st st2 : ServerState) (s : Student) (sid sockOld sockNew name : String)
    (t1 t2 : Nat)
    (hs : findStudent st.students sid = some s)
    (hst2 : st2 =
      (studentJoin (disconnect st sockOld t1 true).1 sockNew name sid t2 true).1) :
    ∃ s2, findStudent st2.students sid = some s2 ∧
      s2.hasAnswered = s.hasAnswered ∧ s2.socketId = some sockNew ∧
      s2.lastSeen = t2 ∧ s2.kicked = false ∧ s2.name = s.name ∧
      (s.hasAnswered = true → ∀ poll answer,
        st2.currentActivePoll = some poll →
        submitAnswer st2 sockNew (some sid) poll.pid sid answer true true true =
          (st2, [.errorNotice sockNew
            "You have already answered this poll or are not a valid student."])) := by
  obtain ⟨s1, hfind1, hid1, hname1, hans1, hkick1⟩ :=
    findStudent_markOffline st.students sockOld t1 sid s hs
  have hfind1b : findStudent (disconnect st sockOld t1 true).1.students sid =
      some s1 := by
    simp only [disconnect, Bool.not_true, Bool.false_eq_true, if_false]
    exact hfind1
  have hjs : st2.students = saveStudent (disconnect st sockOld t1 true).1.students
      sid (fun u => { u with socketId := some sockNew, lastSeen := t2,
                             kicked := false }) := by
    rw [hst2]
    simp [studentJoin, hfind1b]
  have hfind2 : findStudent st2.students sid =
      some { s1 with socketId := some sockNew, lastSeen := t2, kicked := false } := by
    rw [hjs, findStudent_saveStudent ((disconnect st sockOld t1 true).1.students)
          sid (fun u => { u with socketId := some sockNew, lastSeen := t2,
                                 kicked := false }) (fun u => rfl), hfind1b]
    rfl
  refine ⟨{ s1 with socketId := some sockNew, lastSeen := t2, kicked := false },
    hfind2, hans1, rfl, rfl, rfl, hname1, ?_⟩
  intro hans poll answer hpoll
  simp [submitAnswer, hpoll, hfind2, hans1, hans]

/-- Witness for C7 at the concrete answered fixture. -/
theorem reconnect_preserves_hasAnswered_witness :
    findStudent stAnsweredEx.students "s1" = some annAnsweredEx ∧
    ∃ s2, findStudent ((studentJoin (disconnect stAnsweredEx "k1" 4 true).1
        "k2" "Ann" "s1" 5 true).1).students "s1" = some s2 ∧
      s2.hasAnswered = annAnsweredEx.hasAnswered ∧ s2.socketId = some "k2" ∧
      s2.lastSeen = 5 ∧ s2.kicked = false ∧ s2.name = annAnsweredEx.name ∧
      (annAnsweredEx.hasAnswered = true → ∀ poll answer,
        ((studentJoin (disconnect stAnsweredEx "k1" 4 true).1
            "k2" "Ann" "s1" 5 true).1).currentActivePoll = some poll →
        submitAnswer ((studentJoin (disconnect stAnsweredEx "k1" 4 true).1
            "k2" "Ann" "s1" 5 true).1) "k2" (some "s1") poll.pid "s1" answer
            true true true =
          (((studentJoin (disconnect stAnsweredEx "k1" 4 true).1
              "k2" "Ann" "s1" 5 true).1),
           [.errorNotice "k2"
             "You have already answered this poll or are not a valid student."])) :=
  ⟨rfl, reconnect_preserves_hasAnswered stAnsweredEx _ annAnsweredEx "s1" "k1" "k2"
    "Ann" 4 5 rfl rfl⟩

/-! ### C8 -/

theorem studentInv_map (l : List Student) (g : Student → Student)
    (hl : ∀ s ∈ l, StudentInv s) (hg : ∀ s, StudentInv s → StudentInv (g s)) :
    ∀ s ∈ l.map g, StudentInv s := by
  intro s hsm
  obtain ⟨orig, ho, rfl⟩ := List.mem_map.1 hsm
  exact hg orig (hl orig ho)

theorem studentInv_markOffline (l : List Student) (sockId : String) (now : Nat)
    (hl : ∀ s ∈ l, StudentInv s) :
    ∀ s ∈ markOffline l sockId now, StudentInv s := by
  induction l with
  | nil =>
    intro s hsm
    simp [markOffline] at hsm
  | cons a rest ih =>
    intro s hsm
    simp only [markOffline] at hsm
    by_cases hm : (a.socketId == some sockId) = true
    · rw [if_pos hm] at hsm
      rcases List.mem_cons.1 hsm with rfl | h2
      · intro hcon
        simp at hcon
      · exact hl s (List.mem_cons_of_mem a h2)
    · rw [if_neg hm] at hsm
      rcases List.mem_cons.1 hsm with rfl | h2
      · exact hl _ (List.mem_cons_self _ _)
      · exact ih (fun u hu => hl u (List.mem_cons_of_mem a hu)) s h2

theorem studentJoin_inv (st : ServerState) (sockId name sid : String) (now : Nat)
    (saveOk : Bool) (h : ∀ s ∈ st.students, StudentInv s) :
    ∀ s ∈ (studentJoin st sockId name sid now saveOk).1.students, StudentInv s := by
  intro s hsm
  unfold studentJoin at hsm
  rcases hfs : findStudent st.students sid with _ | s0
  · rw [hfs] at hsm
    simp only at hsm
    split at hsm
    · simp only at hsm
      rcases List.mem_append.1 hsm with h2 | h2
      · exact h s h2
      · rcases List.mem_singleton.1 h2 with rfl
        intro _
        rfl
    · exact h s hsm
  · rw [hfs] at hsm
    simp only at hsm
    split at hsm
    · simp only at hsm
      refine studentInv_map _ _ h ?_ s hsm
      intro u hu
      by_cases hc : (u.studentId == sid) = true
      · rw [if_pos hc]
        intro _
        rfl
      · rw [if_neg hc]
        exact hu
    · exact h s hsm

theorem submitAnswer_inv (st : ServerState) (sockSid : String) (ssid : Option String)
    (pollId : Nat) (sid answer : String) (fOk pOk sOk : Bool)
    (h : ∀ s ∈ st.students, StudentInv s) :
    ∀ s ∈ (submitAnswer st sockSid ssid pollId sid answer fOk pOk sOk).1.students,
      StudentInv s := by
  intro s hsm
  unfold submitAnswer at hsm
  split at hsm
  · exact h s hsm
  · rcases hpoll : st.currentActivePoll with _ | poll
    · rw [hpoll] at hsm
      exact h s hsm
    · rw [hpoll] at hsm
      simp only at hsm
      split at hsm
      · exact h s hsm
      · split at hsm
        · exact h s hsm
        · rcases hstu : findStudent st.students sid with _ | student
          · rw [hstu] at hsm
            exact h s hsm
          · rw [hstu] at hsm
            simp only at hsm
            split at hsm
            · exact h s hsm
            · rcases hidx : findOptionIdx poll.options answer with _ | i
              · rw [hidx] at hsm
                exact h s hsm
              · rw [hidx] at hsm
                simp only at hsm
                split at hsm
                · exact h s hsm
                · split at hsm
                  · exact h s hsm
                  · simp only at hsm
                    refine studentInv_map _ _ h ?_ s hsm
                    intro u hu
                    by_cases hc : (u.studentId == sid) = true
                    · rw [if_pos hc]
                      exact hu
                    · rw [if_neg hc]
                      exact hu

theorem createPoll_inv (st : ServerState) (sockSid : String) (pd : PollInput)
    (newPid now : Nat) (uOk pOk : Bool) (h : ∀ s ∈ st.students, StudentInv s) :
    ∀ s ∈ (createPoll st sockSid pd newPid now uOk pOk).1.students, StudentInv s := by
  intro s hsm
  unfold createPoll at hsm
  split at hsm
  · exact h s hsm
  · split at hsm
    · exact h s hsm
    · split at hsm
      · simp only at hsm
        refine studentInv_map _ _ h ?_ s hsm
        intro u hu
        by_cases hc : (u.socketId.isSome && !u.kicked) = true
        · rw [if_pos hc]
          exact hu
        · rw [if_neg hc]
          exact hu
      · simp only at hsm
        refine studentInv_map _ _ h ?_ s hsm
        intro u hu
        by_cases hc : (u.socketId.isSome && !u.kicked) = true
        · rw [if_pos hc]
          exact hu
        · rw [if_neg hc]
          exact hu

theorem endPoll_inv (st : ServerState) (pollId now : Nat) (pOk uOk : Bool)
    (h : ∀ s ∈ st.students, StudentInv s) :
    ∀ s ∈ (endPoll st pollId now pOk uOk).1.students, StudentInv s := by
  intro s hsm
  unfold endPoll at hsm
  rcases hpoll : st.currentActivePoll with _ | poll
  · rw [hpoll] at hsm
    exact h s hsm
  · rw [hpoll] at hsm
    simp only at hsm
    split at hsm
    · exact h s hsm
    · split at hsm
      · exact h s hsm
      · split at hsm
        · exact h s hsm
        · simp only at hsm
          refine studentInv_map _ _ h ?_ s hsm
          intro u hu
          exact hu

theorem kickStudent_inv (st : ServerState) (sockSid sid : String)
    (fOk sOk : Bool) (targetSock : Option String)
    (h : ∀ s ∈ st.students, StudentInv s) :
    ∀ s ∈ (kickStudent st sockSid sid fOk sOk targetSock).1.students, StudentInv s := by
  intro s hsm
  unfold kickStudent at hsm
  split at hsm
  · exact h s hsm
  · rcases hstu : findStudent st.students sid with _ | student
    · rw [hstu] at hsm
      exact h s hsm
    · rw [hstu] at hsm
      simp only at hsm
      split at hsm
      · exact h s hsm
      · simp only at hsm
        refine studentInv_map _ _ h ?_ s hsm
        intro u hu
        by_cases hc : (u.studentId == sid) = true
        · rw [if_pos hc]
          intro hcon
          simp at hcon
        · rw [if_neg hc]
          exact hu

theorem disconnect_inv (st : ServerState) (sockId : String) (now : Nat)
    (uOk : Bool) (h : ∀ s ∈ st.students, StudentInv s) :
    ∀ s ∈ (disconnect st sockId now uOk).1.students, StudentInv s := by
  intro s hsm
  unfold disconnect at hsm
  split at hsm
  · exact h s hsm
  · simp only at hsm
    exact studentInv_markOffline st.students sockId now h s hsm

theorem applyOp_inv (st : ServerState) (op : Op)
    (h : ∀ s ∈ st.students, StudentInv s) :
    ∀ s ∈ (applyOp st op).1.students, StudentInv s := by
  cases op with
  | join a b c d e => exact studentJoin_inv st a b c d e h
  | submit a b c d e fOk pOk sOk => exact submitAnswer_inv st a b c d e fOk pOk sOk h
  | create a pd b c d e => exact createPoll_inv st a pd b c d e h
  | close a b c d => exact endPoll_inv st a b c d h
  | kick a b c d e => exact kickStudent_inv st a b c d e h
  | disc a b c => exact disconnect_inv st a b c h

theorem runOps_inv (ops : List Op) (st : ServerState)
    (h : ∀ s ∈ st.students, StudentInv s) :
    ∀ s ∈ (runOps st ops).students, StudentInv s := by
  induction ops generalizing st with
  | nil => exact h
  | cons op rest ih => exact ih (applyOp st op).1 (applyOp_inv st op h)

/-- C8: in every state reachable from process start by any sequence of
operations (join, vote, create, close, kick, disconnect — with any store
outcomes), every respondent record holding a connection handle is unblocked:
kicking clears the handle in the same step that sets the flag, and rejoining
clears the flag in the same step that assigns a handle. -/
theorem connected_not_kicked (ops : List Op) :
    ∀ s ∈ (runOps initState ops).students,
      s.socketId.isSome = true → s.kicked = false := by
  have h0 : ∀ s ∈ initState.students, StudentInv s := by
    intro s hs
    simp [initState] at hs
  exact runOps_inv ops initState h0

/-- Witness for C8 on the concrete run: after Ann is kicked and rejoins, her
record holds the fresh handle and an unset blocked flag, and the theorem
applied at that record yields exactly that. -/
theorem connected_not_kicked_witness :
    ({ socketId := some "k2", studentId := "s1", name := "Ann", lastSeen := 8,
       hasAnswered := true, kicked := false } : Student) ∈
        (runOps initState opsEx).students ∧
    ({ socketId := some "k2", studentId := "s1", name := "Ann", lastSeen := 8,
       hasAnswered := true, kicked := false } : Student).socketId.isSome = true ∧
    ({ socketId := some "k2", studentId := "s1", name := "Ann", lastSeen := 8,
       hasAnswered := true, kicked := false } : Student).kicked = false :=
  ⟨by decide, by decide,
   connected_not_kicked opsEx
     { socketId := some "k2", studentId := "s1", name := "Ann", lastSeen := 8,
       hasAnswered := true, kicked := false } (by decide) (by decide)⟩

/-! ### C9 -/

theorem sumVotes_fresh (l : List (String × Bool)) :
    sumVotes (l.map (fun o => { text := o.1, isCorrect := o.2, votes := 0 })) = 0 := by
  induction l with
  | nil => rfl
  | cons a rest ih => simp [sumVotes, ih]

theorem joinPollMsg_shape (st : ServerState) :
    ∃ v stt, joinPollMsg st = OutMsg.newPollNotice v stt := by
  unfold joinPollMsg
  split
  · split
    · exact ⟨_, _, rfl⟩
    · exact ⟨none, "no_active_poll", rfl⟩
  · exact ⟨none, "no_active_poll", rfl⟩

theorem pollUpdate_ne_joinPollMsg (st : ServerState) (opts : List SentOption)
    (tv : Option Nat) (ac ts : Nat) :
    OutMsg.pollUpdate opts tv ac ts ≠ joinPollMsg st := by
  obtain ⟨v, stt, hjp⟩ := joinPollMsg_shape st
  rw [hjp]
  simp

theorem sessionInv_join (st : ServerState) (sockId name sid : String) (now : Nat)
    (saveOk : Bool) (h : SessionInv st) :
    SessionInv (studentJoin st sockId name sid now saveOk).1 ∧
    (∀ opts tv ac ts, OutMsg.pollUpdate opts (some tv) ac ts ∈
      (studentJoin st sockId name sid now saveOk).2 → ac = tv) := by
  unfold studentJoin
  split
  · split
    · dsimp only
      refine ⟨fun p hp => h p hp, ?_⟩
      intro opts tv ac ts hmem
      simp at hmem
      exact absurd hmem (pollUpdate_ne_joinPollMsg _ _ _ _ _)
    · exact ⟨h, fun opts tv ac ts hmem => by simp at hmem⟩
  · split
    · dsimp only
      refine ⟨fun p hp => h p hp, ?_⟩
      intro opts tv ac ts hmem
      simp at hmem
      exact absurd hmem (pollUpdate_ne_joinPollMsg _ _ _ _ _)
    · exact ⟨h, fun opts tv ac ts hmem => by simp at hmem⟩

theorem sessionInv_submit (st : ServerState) (sockSid : String) (ssid : Option String)
    (pollId : Nat) (sid answer : String) (h : SessionInv st) :
    SessionInv (submitAnswer st sockSid ssid pollId sid answer true true true).1 ∧
    (∀ opts tv ac ts, OutMsg.pollUpdate opts (some tv) ac ts ∈
      (submitAnswer st sockSid ssid pollId sid answer true true true).2 → ac = tv) := by
  unfold submitAnswer
  simp only [Bool.not_true, Bool.false_eq_true, if_false]
  split
  · exact ⟨h, fun opts tv ac ts hmem => by simp at hmem⟩
  · split
    · exact ⟨h, fun opts tv ac ts hmem => by simp at hmem⟩
    · rename_i poll heqpoll
      split
      · exact ⟨h, fun opts tv ac ts hmem => by simp at hmem⟩
      · split
        · exact ⟨h, fun opts tv ac ts hmem => by simp at hmem⟩
        · rename_i student heqstu
          split
          · exact ⟨h, fun opts tv ac ts hmem => by simp at hmem⟩
          · split
            · exact ⟨h, fun opts tv ac ts hmem => by simp at hmem⟩
            · rename_i i heqidx
              dsimp only
              have hlt := findOptionIdx_lt_length poll.options answer i heqidx
              have hsum := sumVotes_incVoteAt poll.options i hlt
              have hbase := h poll heqpoll
              constructor
              · intro p hp
                obtain rfl := Option.some_inj.1 hp
                show st.answeredStudentsCount + 1 = sumVotes (incVoteAt poll.options i)
                omega
              · intro opts tv ac ts hmem
                simp at hmem
                obtain ⟨_, htv, hac, _⟩ := hmem
                omega

theorem sessionInv_create (st : ServerState) (sockSid : String) (pd : PollInput)
    (newPid now : Nat) (h : SessionInv st) :
    SessionInv (createPoll st sockSid pd newPid now true true).1 ∧
    (∀ opts tv ac ts, OutMsg.pollUpdate opts (some tv) ac ts ∈
      (createPoll st sockSid pd newPid now true true).2 → ac = tv) := by
  unfold createPoll
  simp only [Bool.not_true, Bool.false_eq_true, if_false]
  split
  · exact ⟨h, fun opts tv ac ts hmem => by simp at hmem⟩
  · dsimp only
    constructor
    · intro p hp
      obtain rfl := Option.some_inj.1 hp
      show (0 : Nat) = sumVotes (pd.options.map (fun o =>
        { text := o.1, isCorrect := o.2, votes := 0 }))
      rw [sumVotes_fresh]
    · intro opts tv ac ts hmem
      simp at hmem

theorem sessionInv_close (st : ServerState) (pollId now : Nat) (h : SessionInv st) :
    SessionInv (endPoll st pollId now true true).1 ∧
    (∀ opts tv ac ts, OutMsg.pollUpdate opts (some tv) ac ts ∈
      (endPoll st pollId now true true).2 → ac = tv) := by
  unfold endPoll
  simp only [Bool.not_true, Bool.false_eq_true, if_false]
  split
  · exact ⟨h, fun opts tv ac ts hmem => by simp at hmem⟩
  · split
    · exact ⟨h, fun opts tv ac ts hmem => by simp at hmem⟩
    · dsimp only
      constructor
      · intro p hp
        simp at hp
      · intro opts tv ac ts hmem
        simp at hmem

theorem sessionInv_kick (st : ServerState) (sockSid sid : String) (fOk sOk : Bool)
    (targetSock : Option String) (h : SessionInv st) :
    SessionInv (kickStudent st sockSid sid fOk sOk targetSock).1 ∧
    (∀ opts tv ac ts, OutMsg.pollUpdate opts (some tv) ac ts ∈
      (kickStudent st sockSid sid fOk sOk targetSock).2 → ac = tv) := by
  unfold kickStudent
  split
  · exact ⟨h, fun opts tv ac ts hmem => by simp at hmem⟩
  · split
    · exact ⟨h, fun opts tv ac ts hmem => by simp at hmem⟩
    · split
      · exact ⟨h, fun opts tv ac ts hmem => by simp at hmem⟩
      · dsimp only
        refine ⟨fun p hp => h p hp, ?_⟩
        intro opts tv ac ts hmem
        rcases targetSock with _ | t <;> simp at hmem

theorem sessionInv_disc (st : ServerState) (sockId : String) (now : Nat)
    (uOk : Bool) (h : SessionInv st) :
    SessionInv (disconnect st sockId now uOk).1 ∧
    (∀ opts tv ac ts, OutMsg.pollUpdate opts (some tv) ac ts ∈
      (disconnect st sockId now uOk).2 → ac = tv) := by
  unfold disconnect
  split
  · exact ⟨h, fun opts tv ac ts hmem => by simp at hmem⟩
  · dsimp only
    exact ⟨fun p hp => h p hp, fun opts tv ac ts hmem => by simp at hmem⟩

theorem applyOp_allOk_inv (st : ServerState) (op : Op) (hok : op.allOk = true)
    (h : SessionInv st) :
    SessionInv (applyOp st op).1 ∧
    (∀ opts tv ac ts, OutMsg.pollUpdate opts (some tv) ac ts ∈ (applyOp st op).2 →
      ac = tv) := by
  cases op with
  | join a b c d e => exact sessionInv_join st a b c d e h
  | submit a b c d e fOk pOk sOk =>
    simp only [Op.allOk, Bool.and_eq_true] at hok
    obtain ⟨⟨hf, hp2⟩, hs2⟩ := hok
    subst hf
    subst hp2
    subst hs2
    exact sessionInv_submit st a b c d e h
  | create a pd b c u p =>
    simp only [Op.allOk, Bool.and_eq_true] at hok
    obtain ⟨hu, hp2⟩ := hok
    subst hu
    subst hp2
    exact sessionInv_create st a pd b c h
  | close a b p u =>
    simp only [Op.allOk, Bool.and_eq_true] at hok
    obtain ⟨hp2, hu⟩ := hok
    subst hp2
    subst hu
    exact sessionInv_close st a b h
  | kick a b f s t => exact sessionInv_kick st a b f s t h
  | disc a b u => exact sessionInv_disc st a b u h

theorem runOps_allOk_inv (ops : List Op) (st : ServerState)
    (hok : ∀ op ∈ ops, op.allOk = true) (h : SessionInv st) :
    SessionInv (runOps st ops) ∧
    (∀ opts tv ac ts, OutMsg.pollUpdate opts (some tv) ac ts ∈ runMsgs st ops →
      ac = tv) := by
  induction ops generalizing st with
  | nil => exact ⟨h, fun opts tv ac ts hmem => by simp [runMsgs] at hmem⟩
  | cons op rest ih =>
    obtain ⟨h1, h2⟩ := applyOp_allOk_inv st op (hok op (List.mem_cons_self _ _)) h
    obtain ⟨h3, h4⟩ := ih (applyOp st op).1
      (fun o ho => hok o (List.mem_cons_of_mem _ ho)) h1
    refine ⟨h3, ?_⟩
    intro opts tv ac ts hmem
    rw [runMsgs] at hmem
    rcases List.mem_append.1 hmem with hmem | hmem
    · exact h2 opts tv ac ts hmem
    · exact h4 opts tv ac ts hmem

/-- C9: in any run from process start in which every store operation
succeeds, the answered counter equals the sum of the active poll's option
vote counts whenever a poll is active (both are zeroed at creation,
incremented together on each accepted vote, and reset on close), and every
result update carrying a total-votes field — exactly those emitted after an
accepted vote — has its answered count equal to its total voters. -/
theorem answered_counter_matches_votes (ops : List Op)
    (hok : ∀ op ∈ ops, op.allOk = true) :
    (∀ p, (runOps initState ops).currentActivePoll = some p →
      (runOps initState ops).answeredStudentsCount = sumVotes p.options) ∧
    (∀ opts tv ac ts,
      OutMsg.pollUpdate opts (some tv) ac ts ∈ runMsgs initState ops → ac = tv) := by
  have h0 : SessionInv initState := by
    intro p hp
    simp [initState] at hp
  exact runOps_allOk_inv ops initState hok h0

/-- Witness for C9 on the concrete all-success run. -/
theorem answered_counter_matches_votes_witness :
    (∀ op ∈ opsEx, op.allOk = true) ∧
    ((∀ p, (runOps initState opsEx).currentActivePoll = some p →
      (runOps initState opsEx).answeredStudentsCount = sumVotes p.options) ∧
    (∀ opts tv ac ts,
      OutMsg.pollUpdate opts (some tv) ac ts ∈ runMsgs initState opsEx → ac = tv)) :=
  ⟨by decide, answered_counter_matches_votes opsEx (by decide)⟩

/-! ### C1 -/

theorem votesAt_incVoteAt (opts : List PollOption) (i : Nat) (hi : i < opts.length) :
    ∀ k, votesAt (incVoteAt opts i) k = votesAt opts k + (if k = i then 1 else 0) := by
  induction opts generalizing i with
  | nil => simp at hi
  | cons o rest ih =>
    cases i with
    | zero =>
      intro k
      cases k with
      | zero => simp [incVoteAt, votesAt]
      | succ m => simp [incVoteAt, votesAt]
    | succ n =>
      intro k
      cases k with
      | zero => simp [incVoteAt, votesAt]
      | succ m =>
        have hn : n < rest.length := Nat.lt_of_succ_lt_succ hi
        have := ih n hn m
        simp only [incVoteAt, votesAt] at this ⊢
        simpa [List.get?] using this

theorem submitSame_cases (sockSid sid : String) (pid : Nat) (st : ServerState)
    (answer : String) :
    ((submitSame sockSid sid pid st answer).1 = st ∧
     ∃ m, (submitSame sockSid sid pid st answer).2 = [OutMsg.errorNotice sockSid m]) ∨
    (∃ poll i student,
      st.currentActivePoll = some poll ∧ poll.pid = pid ∧
      findStudent st.students sid = some student ∧ student.hasAnswered = false ∧
      findOptionIdx poll.options answer = some i ∧
      (submitSame sockSid sid pid st answer).1 = { st with
        currentActivePoll := some ({ poll with options := incVoteAt poll.options i }),
        students := saveStudent st.students sid (fun u => { u with hasAnswered := true }),
        answeredStudentsCount := st.answeredStudentsCount + 1 } ∧
      isAcceptedMsgs (submitSame sockSid sid pid st answer).2 = true) := by
  unfold submitSame submitAnswer
  simp only [Bool.not_true, Bool.false_eq_true, if_false]
  split
  · rename_i hne
    exact absurd rfl hne
  · split
    · exact Or.inl ⟨rfl, _, rfl⟩
    · rename_i poll heqpoll
      split
      · exact Or.inl ⟨rfl, _, rfl⟩
      · rename_i hpid
        split
        · exact Or.inl ⟨rfl, _, rfl⟩
        · rename_i student heqstu
          split
          · exact Or.inl ⟨rfl, _, rfl⟩
          · rename_i hans
            split
            · exact Or.inl ⟨rfl, _, rfl⟩
            · rename_i i heqidx
              refine Or.inr ⟨poll, i, student, heqpoll, by omega, heqstu,
                by simpa using hans, heqidx, ?_, ?_⟩
              · dsimp only
              · rfl

theorem submitSame_alreadyAnswered (sockSid sid : String) (pid : Nat)
    (st : ServerState) (answer : String) (poll : Poll) (s : Student)
    (hp : st.currentActivePoll = some poll) (hpid : poll.pid = pid)
    (hs : findStudent st.students sid = some s) (ha : s.hasAnswered = true) :
    submitSame sockSid sid pid st answer =
      (st, [OutMsg.errorNotice sockSid
        "You have already answered this poll or are not a valid student."]) := by
  simp [submitSame, submitAnswer, hp, hpid, hs, ha]

theorem accepted_post_facts (sockSid sid : String) (pid : Nat) (st : ServerState)
    (answer : String) (poll : Poll) (i : Nat) (student : Student)
    (hp : st.currentActivePoll = some poll) (hpid : poll.pid = pid)
    (hstu : findStudent st.students sid = some student)
    (hpost : (submitSame sockSid sid pid st answer).1 = { st with
        currentActivePoll := some ({ poll with options := incVoteAt poll.options i }),
        students := saveStudent st.students sid (fun u => { u with hasAnswered := true }),
        answeredStudentsCount := st.answeredStudentsCount + 1 }) :
    (submitSame sockSid sid pid st answer).1.currentActivePoll =
      some ({ poll with options := incVoteAt poll.options i }) ∧
    ({ poll with options := incVoteAt poll.options i } : Poll).pid = pid ∧
    findStudent (submitSame sockSid sid pid st answer).1.students sid =
      some ({ student with hasAnswered := true }) ∧
    ({ student with hasAnswered := true } : Student).hasAnswered = true := by
  refine ⟨by rw [hpost], by simpa using hpid, ?_, rfl⟩
  rw [hpost]
  show findStudent (saveStudent st.students sid
    (fun u => { u with hasAnswered := true })) sid = _
  rw [findStudent_saveStudent st.students sid
    (fun u => { u with hasAnswered := true }) (fun u => rfl), hstu]
  rfl

theorem submitTrace_already_noop (sockSid sid : String) (pid : Nat)
    (answers : List String) (st : ServerState) (poll : Poll) (s : Student)
    (hp : st.currentActivePoll = some poll) (hpid : poll.pid = pid)
    (hs : findStudent st.students sid = some s) (ha : s.hasAnswered = true) :
    ∀ e ∈ submitTrace sockSid sid pid st answers,
      e.msgs = [OutMsg.errorNotice sockSid
        "You have already answered this poll or are not a valid student."] ∧
      e.post = e.pre := by
  induction answers with
  | nil =>
    intro e he
    simp [submitTrace] at he
  | cons a rest ih =>
    intro e he
    have hstep := submitSame_alreadyAnswered sockSid sid pid st a poll s hp hpid hs ha
    simp only [submitTrace] at he
    rcases List.mem_cons.1 he with rfl | he2
    · exact ⟨by rw [hstep], by rw [hstep]⟩
    · have hpost : (submitSame sockSid sid pid st a).1 = st := by rw [hstep]
      rw [hpost] at he2
      exact ih e he2

/-- C1: for every serially-executed sequence of submissions by the same
respondent (socket-bound identity equal to the submitted persistent id)
against the same active poll, at most one call is accepted; the accepted call
increments exactly the first option matching the chosen answer by one vote
(every other vote count unchanged); and every call after the accepted one
fails with the already-answered error notice and leaves the state — in
particular every vote count — unchanged. -/
theorem submit_at_most_once (sockSid sid : String) (pid : Nat)
    (answers : List String) (st : ServerState) (poll : Poll)
    (hp : st.currentActivePoll = some poll) (hpid : poll.pid = pid) :
    ((submitTrace sockSid sid pid st answers).countP
        (fun e => isAcceptedMsgs e.msgs)) ≤ 1 ∧
    (∀ e ∈ submitTrace sockSid sid pid st answers, isAcceptedMsgs e.msgs = true →
      ∃ p0 i, e.pre.currentActivePoll = some p0 ∧
        findOptionIdx p0.options e.answer = some i ∧ i < p0.options.length ∧
        e.post.currentActivePoll = some ({ p0 with options := incVoteAt p0.options i }) ∧
        (∀ k, votesAt (incVoteAt p0.options i) k =
          votesAt p0.options k + (if k = i then 1 else 0))) ∧
    (∀ i j, ∀ hi : i < (submitTrace sockSid sid pid st answers).length,
      ∀ hj : j < (submitTrace sockSid sid pid st answers).length, i < j →
      isAcceptedMsgs ((submitTrace sockSid sid pid st answers).get ⟨i, hi⟩).msgs = true →
      ((submitTrace sockSid sid pid st answers).get ⟨j, hj⟩).msgs =
        [OutMsg.errorNotice sockSid
          "You have already answered this poll or are not a valid student."] ∧
      ((submitTrace sockSid sid pid st answers).get ⟨j, hj⟩).post =
        ((submitTrace sockSid sid pid st answers).get ⟨j, hj⟩).pre) := by
  induction answers generalizing st poll with
  | nil =>
    refine ⟨by simp [submitTrace], ?_, ?_⟩
    · intro e he
      simp [submitTrace] at he
    · intro i j hi hj
      simp [submitTrace] at hi
  | cons a rest ih =>
    have htr : submitTrace sockSid sid pid st (a :: rest) =
        { pre := st, answer := a, msgs := (submitSame sockSid sid pid st a).2,
          post := (submitSame sockSid sid pid st a).1 } ::
          submitTrace sockSid sid pid (submitSame sockSid sid pid st a).1 rest := by
      simp [submitTrace]
    rcases submitSame_cases sockSid sid pid st a with
      ⟨hunch, m, hmsgs⟩ | ⟨p0, i0, stu, hp0, hpid0, hstu, hansf, hidx0, hpost, hacc⟩
    · have haccf : isAcceptedMsgs (submitSame sockSid sid pid st a).2 = false := by
        rw [hmsgs]
        rfl
      obtain ⟨ih1, ih2, ih3⟩ := ih st poll hp hpid
      rw [htr, hunch]
      refine ⟨?_, ?_, ?_⟩
      · simpa [List.countP_cons, haccf] using ih1
      · intro e he heacc
        rcases List.mem_cons.1 he with rfl | he2
        · exact absurd heacc (by simp [haccf])
        · exact ih2 e he2 heacc
      · intro i j hi hj hij hiacc
        cases i with
        | zero => exact absurd hiacc (by simp [haccf])
        | succ i2 =>
          cases j with
          | zero => omega
          | succ j2 =>
            exact ih3 i2 j2 (Nat.lt_of_succ_lt_succ hi) (Nat.lt_of_succ_lt_succ hj)
              (Nat.lt_of_succ_lt_succ hij) hiacc
    · obtain ⟨hc1, hc2, hc3, hc4⟩ := accepted_post_facts sockSid sid pid st a p0 i0 stu
        hp0 hpid0 hstu hpost
      have hnoop := submitTrace_already_noop sockSid sid pid rest
        (submitSame sockSid sid pid st a).1
        ({ p0 with options := incVoteAt p0.options i0 })
        ({ stu with hasAnswered := true }) hc1 hc2 hc3 hc4
      have hnacc : ∀ e ∈ submitTrace sockSid sid pid
          (submitSame sockSid sid pid st a).1 rest,
          isAcceptedMsgs e.msgs = false := by
        intro e he
        rw [(hnoop e he).1]
        rfl
      rw [htr]
      refine ⟨?_, ?_, ?_⟩
      · have hz : (submitTrace sockSid sid pid (submitSame sockSid sid pid st a).1
            rest).countP (fun e => isAcceptedMsgs e.msgs) = 0 := by
          rw [List.countP_eq_zero]
          intro e he
          simp [hnacc e he]
        simp [List.countP_cons, hz, hacc]
      · intro e he heacc
        rcases List.mem_cons.1 he with rfl | he2
        · refine ⟨p0, i0, hp0, hidx0,
            findOptionIdx_lt_length p0.options a i0 hidx0, ?_, ?_⟩
          · show (submitSame sockSid sid pid st a).1.currentActivePoll = _
            exact hc1
          · exact votesAt_incVoteAt p0.options i0
              (findOptionIdx_lt_length p0.options a i0 hidx0)
        · exact absurd heacc (by simp [hnacc e he2])
      · intro i j hi hj hij hiacc
        cases j with
        | zero => omega
        | succ j2 =>
          have hmem := List.get_mem (submitTrace sockSid sid pid
            (submitSame sockSid sid pid st a).1 rest) j2 (Nat.lt_of_succ_lt_succ hj)
          exact hnoop _ hmem

/-- Witness for C1: Ann votes "4", then retries twice against the same
active poll. -/
theorem submit_at_most_once_witness :
    ((submitTrace "k1" "s1" 1 stActiveEx ["4", "4", "5"]).countP
        (fun e => isAcceptedMsgs e.msgs)) ≤ 1 ∧
    (∀ e ∈ submitTrace "k1" "s1" 1 stActiveEx ["4", "4", "5"],
      isAcceptedMsgs e.msgs = true →
      ∃ p0 i, e.pre.currentActivePoll = some p0 ∧
        findOptionIdx p0.options e.answer = some i ∧ i < p0.options.length ∧
        e.post.currentActivePoll = some ({ p0 with options := incVoteAt p0.options i }) ∧
        (∀ k, votesAt (incVoteAt p0.options i) k =
          votesAt p0.options k + (if k = i then 1 else 0))) ∧
    (∀ i j, ∀ hi : i < (submitTrace "k1" "s1" 1 stActiveEx ["4", "4", "5"]).length,
      ∀ hj : j < (submitTrace "k1" "s1" 1 stActiveEx ["4", "4", "5"]).length, i < j →
      isAcceptedMsgs ((submitTrace "k1" "s1" 1 stActiveEx
        ["4", "4", "5"]).get ⟨i, hi⟩).msgs = true →
      ((submitTrace "k1" "s1" 1 stActiveEx ["4", "4", "5"]).get ⟨j, hj⟩).msgs =
        [OutMsg.errorNotice "k1"
          "You have already answered this poll or are not a valid student."] ∧
      ((submitTrace "k1" "s1" 1 stActiveEx ["4", "4", "5"]).get ⟨j, hj⟩).post =
        ((submitTrace "k1" "s1" 1 stActiveEx ["4", "4", "5"]).get ⟨j, hj⟩).pre) :=
  submit_at_most_once "k1" "s1" 1 ["4", "4", "5"] stActiveEx pollEx rfl rfl
